import Mathlib

/-!
Verification of the spaceweather-keyword workflow notebook
(`calculate_swx_workflow.ipynb`).

The notebook computes the SHARP keyword "total unsigned flux" from a radial
magnetic-field map `bz`, its per-pixel error map `bz_err`, a disambiguation
confidence map `conf_disambig` and a region-membership `bitmap`, together
with geometry scalars.  The central function is `compute_abs_flux_dask`;
the geometry derivation of `cdelt1_arcsec` lives in
`get_data_for_a_single_trec_dask` / `get_data_for_a_single_trec_numpy`.

Array entries are IEEE double-precision floats.  We embed float values as
`PyFloat`: a real number, NaN, or one of the two infinities, with the IEEE
semantics of the operations the notebook uses (idealising finite floats as
exact reals).  Geometry scalars are modelled as plain reals.
-/

/-- An IEEE floating-point value: a finite real, NaN, +inf or -inf. -/
inductive PyFloat where
  | fin : ℝ → PyFloat
  | nan : PyFloat
  | inf : PyFloat
  | neginf : PyFloat

namespace PyFloat

/-- IEEE `isnan` test (`np.isnan`). -/
def isnan : PyFloat → Bool
  | nan => true
  | _ => false

/-- IEEE addition, restricted to the cases that can arise (NaN propagates,
opposite infinities give NaN). -/
def add : PyFloat → PyFloat → PyFloat
  | fin x, fin y => fin (x + y)
  | nan, _ => nan
  | _, nan => nan
  | inf, neginf => nan
  | neginf, inf => nan
  | inf, _ => inf
  | _, inf => inf
  | neginf, _ => neginf
  | _, neginf => neginf

/-- IEEE multiplication: NaN propagates, `0 * inf = NaN`, otherwise signs
combine. -/
noncomputable def mul : PyFloat → PyFloat → PyFloat
  | fin x, fin y => fin (x * y)
  | nan, _ => nan
  | _, nan => nan
  | inf, fin y => if y = 0 then nan else if 0 < y then inf else neginf
  | fin x, inf => if x = 0 then nan else if 0 < x then inf else neginf
  | neginf, fin y => if y = 0 then nan else if 0 < y then neginf else inf
  | fin x, neginf => if x = 0 then nan else if 0 < x then neginf else inf
  | inf, inf => inf
  | inf, neginf => neginf
  | neginf, inf => neginf
  | neginf, neginf => inf

/-- IEEE absolute value (`abs`): NaN stays NaN, both infinities map to
+inf. -/
def abs : PyFloat → PyFloat
  | fin x => fin |x|
  | nan => nan
  | inf => inf
  | neginf => inf

/-- IEEE negation. -/
def neg : PyFloat → PyFloat
  | fin x => fin (-x)
  | nan => nan
  | inf => neginf
  | neginf => inf

/-- IEEE square root (`np.sqrt`): NaN on negative or NaN input, `inf` on
+inf. -/
noncomputable def sqrt : PyFloat → PyFloat
  | fin x => if x < 0 then nan else fin (Real.sqrt x)
  | nan => nan
  | inf => inf
  | neginf => nan

/-- IEEE comparison of a float against a finite constant (`x < c`): any
comparison involving NaN is false. -/
def ltc : PyFloat → ℝ → Prop
  | fin x, c => x < c
  | nan, _ => False
  | inf, _ => False
  | neginf, _ => True

noncomputable instance (x : PyFloat) (c : ℝ) : Decidable (x.ltc c) :=
  match x with
  | fin v => inferInstanceAs (Decidable (v < c))
  | nan => inferInstanceAs (Decidable False)
  | inf => inferInstanceAs (Decidable False)
  | neginf => inferInstanceAs (Decidable True)

end PyFloat

/-- Inject a real-valued (finite) array into float-valued arrays. -/
def ofReal (a : ℕ → ℕ → ℝ) : ℕ → ℕ → PyFloat := fun j i => PyFloat.fin (a j i)

/-- Inject a finite-or-NaN array (`none` is the NaN sentinel for a missing
pixel) into float-valued arrays. -/
def ofOpt (a : ℕ → ℕ → Option ℝ) : ℕ → ℕ → PyFloat :=
  fun j i => (a j i).elim PyFloat.nan PyFloat.fin

/-- One iteration of the double loop body of `compute_abs_flux_dask`: skip
the pixel when `conf_disambig[j,i] < 70 or bitmap[j,i] < 30`, skip when
`np.isnan(bz[j,i])`, otherwise accumulate `abs(bz[j,i])` into the running
sum, `bz_err[j,i]*bz_err[j,i]` into the running squared error, and bump
`count_mask`. -/
noncomputable def fluxStep (bz bz_err conf_disambig bitmap : ℕ → ℕ → PyFloat)
    (j i : ℕ) (st : PyFloat × PyFloat × ℕ) : PyFloat × PyFloat × ℕ :=
  if (conf_disambig j i).ltc 70 ∨ (bitmap j i).ltc 30 then st
  else if (bz j i).isnan then st
  else (st.1.add ((bz j i).abs),
        st.2.1.add ((bz_err j i).mul (bz_err j i)),
        st.2.2 + 1)

/-- The notebook function `compute_abs_flux_dask(bz, bz_err, conf_disambig,
bitmap, nx, ny, rsun_ref, rsun_obs, cdelt1_arcsec)`: loop `j` over `ny`
rows and `i` over `nx` columns accumulating `(sum, err, count_mask)` from
zero, then return
`[sum*cdelt1_arcsec^2*(rsun_ref/rsun_obs)^2*100^2,
  sqrt(err)*abs(cdelt1_arcsec^2*(rsun_ref/rsun_obs)^2*100^2),
  count_mask]`. -/
noncomputable def compute_abs_flux_dask
    (bz bz_err conf_disambig bitmap : ℕ → ℕ → PyFloat) (nx ny : ℕ)
    (rsun_ref rsun_obs cdelt1_arcsec : ℝ) : PyFloat × PyFloat × ℕ :=
  let st := (List.range ny).foldl
    (fun st j => (List.range nx).foldl
      (fun st i => fluxStep bz bz_err conf_disambig bitmap j i st) st)
    (PyFloat.fin 0, PyFloat.fin 0, 0)
  let scale := cdelt1_arcsec * cdelt1_arcsec * (rsun_ref / rsun_obs) *
    (rsun_ref / rsun_obs) * 100.0 * 100.0
  (st.1.mul (PyFloat.fin scale),
   (st.2.1.sqrt).mul (PyFloat.fin |scale|),
   st.2.2)

/-- The constant `radsindeg = np.pi/180.` from the notebook. -/
noncomputable def radsindeg : ℝ := Real.pi / 180

/-- The derivation of `cdelt1_arcsec` common to
`get_data_for_a_single_trec_dask` and `get_data_for_a_single_trec_numpy`:
`(math.atan((rsun_ref*cdelt1*radsindeg)/(dsun_obs)))*(1/radsindeg)*(3600.)`. -/
noncomputable def cdelt1_arcsec_of (rsun_ref cdelt1 dsun_obs : ℝ) : ℝ :=
  (Real.arctan ((rsun_ref * cdelt1 * radsindeg) / dsun_obs)) *
    (1 / radsindeg) * 3600

section MasterLemma

variable (bz : ℕ → ℕ → Option ℝ) (bz_err conf_disambig bitmap : ℕ → ℕ → ℝ)

/-- A pixel is valid for the flux aggregation iff the confidence is at
least 70, the bitmap value is at least 30 and the field value is not the
NaN sentinel. -/
def validPix (j i : ℕ) : Prop :=
  70 ≤ conf_disambig j i ∧ 30 ≤ bitmap j i ∧ (bz j i).isSome

noncomputable instance (j i : ℕ) :
    Decidable (validPix bz conf_disambig bitmap j i) := by
  unfold validPix
  infer_instance

/-- Contribution of a pixel to the running unsigned-flux sum. -/
noncomputable def absTerm (j i : ℕ) : ℝ :=
  if validPix bz conf_disambig bitmap j i then |(bz j i).getD 0| else 0

/-- Contribution of a pixel to the running squared-error sum. -/
noncomputable def errTerm (j i : ℕ) : ℝ :=
  if validPix bz conf_disambig bitmap j i then bz_err j i * bz_err j i else 0

/-- Contribution of a pixel to the pixel count. -/
noncomputable def cntTerm (j i : ℕ) : ℕ :=
  if validPix bz conf_disambig bitmap j i then 1 else 0

lemma fluxStep_invalid (j i : ℕ) (st : PyFloat × PyFloat × ℕ)
    (h : ¬ validPix bz conf_disambig bitmap j i) :
    fluxStep (ofOpt bz) (ofReal bz_err) (ofReal conf_disambig)
      (ofReal bitmap) j i st = st := by
  unfold validPix at h
  push_neg at h
  unfold fluxStep
  by_cases h70 : 70 ≤ conf_disambig j i
  · by_cases h30 : 30 ≤ bitmap j i
    · have hns := h h70 h30
      have hnone : bz j i = none := by
        cases hbz : bz j i with
        | none => rfl
        | some x => rw [hbz] at hns; simp at hns
      rw [if_neg, if_pos]
      · simp [ofOpt, hnone, PyFloat.isnan]
      · simp [ofReal, PyFloat.ltc, not_lt.mpr h70, not_lt.mpr h30]
    · rw [if_pos]
      right
      simpa [ofReal, PyFloat.ltc] using not_le.mp h30
  · rw [if_pos]
    left
    simpa [ofReal, PyFloat.ltc] using not_le.mp h70

lemma fluxStep_valid (j i : ℕ) (s e : ℝ) (c : ℕ) (x : ℝ)
    (hx : bz j i = some x)
    (h70 : 70 ≤ conf_disambig j i) (h30 : 30 ≤ bitmap j i) :
    fluxStep (ofOpt bz) (ofReal bz_err) (ofReal conf_disambig)
      (ofReal bitmap) j i (PyFloat.fin s, PyFloat.fin e, c) =
      (PyFloat.fin (s + |x|),
       PyFloat.fin (e + bz_err j i * bz_err j i), c + 1) := by
  unfold fluxStep
  rw [if_neg, if_neg]
  · simp [ofOpt, ofReal, hx, PyFloat.abs, PyFloat.add, PyFloat.mul]
  · simp [ofOpt, hx, PyFloat.isnan]
  · simp [ofReal, PyFloat.ltc, not_lt.mpr h70, not_lt.mpr h30]

lemma inner_fold (j n : ℕ) (s e : ℝ) (c : ℕ) :
    (List.range n).foldl
      (fun st i => fluxStep (ofOpt bz) (ofReal bz_err) (ofReal conf_disambig)
        (ofReal bitmap) j i st)
      (PyFloat.fin s, PyFloat.fin e, c) =
    (PyFloat.fin (s + ∑ i in Finset.range n, absTerm bz conf_disambig bitmap j i),
     PyFloat.fin (e + ∑ i in Finset.range n,
        errTerm bz bz_err conf_disambig bitmap j i),
     c + ∑ i in Finset.range n, cntTerm bz conf_disambig bitmap j i) := by
  induction n with
  | zero => simp
  | succ n ih =>
    rw [List.range_succ, List.foldl_append, ih, List.foldl_cons, List.foldl_nil]
    by_cases hv : validPix bz conf_disambig bitmap j n
    · obtain ⟨h70, h30, hsome⟩ := hv
      obtain ⟨x, hx⟩ := Option.isSome_iff_exists.mp hsome
      rw [fluxStep_valid bz bz_err conf_disambig bitmap j n _ _ _ x hx h70 h30]
      have habs : absTerm bz conf_disambig bitmap j n = |x| := by
        unfold absTerm
        rw [if_pos ⟨h70, h30, hsome⟩, hx]
        rfl
      have herr : errTerm bz bz_err conf_disambig bitmap j n =
          bz_err j n * bz_err j n := by
        unfold errTerm
        rw [if_pos ⟨h70, h30, hsome⟩]
      have hcnt : cntTerm bz conf_disambig bitmap j n = 1 := by
        unfold cntTerm
        rw [if_pos ⟨h70, h30, hsome⟩]
      rw [Finset.sum_range_succ, Finset.sum_range_succ, Finset.sum_range_succ,
        habs, herr, hcnt, add_assoc, add_assoc, add_assoc]
    · rw [fluxStep_invalid bz bz_err conf_disambig bitmap j n _ hv]
      have habs : absTerm bz conf_disambig bitmap j n = 0 := if_neg hv
      have herr : errTerm bz bz_err conf_disambig bitmap j n = 0 := if_neg hv
      have hcnt : cntTerm bz conf_disambig bitmap j n = 0 := if_neg hv
      rw [Finset.sum_range_succ, Finset.sum_range_succ, Finset.sum_range_succ,
        habs, herr, hcnt, add_zero, add_zero, add_zero]

lemma outer_fold (m nx : ℕ) :
    (List.range m).foldl
      (fun st j => (List.range nx).foldl
        (fun st i => fluxStep (ofOpt bz) (ofReal bz_err)
          (ofReal conf_disambig) (ofReal bitmap) j i st) st)
      (PyFloat.fin 0, PyFloat.fin 0, 0) =
    (PyFloat.fin (∑ j in Finset.range m, ∑ i in Finset.range nx,
        absTerm bz conf_disambig bitmap j i),
     PyFloat.fin (∑ j in Finset.range m, ∑ i in Finset.range nx,
        errTerm bz bz_err conf_disambig bitmap j i),
     ∑ j in Finset.range m, ∑ i in Finset.range nx,
        cntTerm bz conf_disambig bitmap j i) := by
  induction m with
  | zero => simp
  | succ m ih =>
    rw [List.range_succ, List.foldl_append, ih, List.foldl_cons, List.foldl_nil,
      inner_fold, Finset.sum_range_succ, Finset.sum_range_succ,
      Finset.sum_range_succ]

lemma errSum_nonneg (m nx : ℕ) :
    0 ≤ ∑ j in Finset.range m, ∑ i in Finset.range nx,
      errTerm bz bz_err conf_disambig bitmap j i := by
  refine Finset.sum_nonneg fun j _ => Finset.sum_nonneg fun i _ => ?_
  unfold errTerm
  split
  · exact mul_self_nonneg _
  · exact le_refl 0

/-- Master evaluation lemma: on finite-or-NaN field values and finite
error/confidence/bitmap values, `compute_abs_flux_dask` returns the three
masked sums scaled exactly as in the source. -/
lemma compute_abs_flux_dask_wrapped (nx ny : ℕ)
    (rsun_ref rsun_obs cdelt1_arcsec : ℝ) :
    compute_abs_flux_dask (ofOpt bz) (ofReal bz_err) (ofReal conf_disambig)
      (ofReal bitmap) nx ny rsun_ref rsun_obs cdelt1_arcsec =
    (PyFloat.fin ((∑ j in Finset.range ny, ∑ i in Finset.range nx,
        absTerm bz conf_disambig bitmap j i) *
      (cdelt1_arcsec * cdelt1_arcsec * (rsun_ref / rsun_obs) *
        (rsun_ref / rsun_obs) * 100 * 100)),
     PyFloat.fin (Real.sqrt (∑ j in Finset.range ny, ∑ i in Finset.range nx,
        errTerm bz bz_err conf_disambig bitmap j i) *
      |cdelt1_arcsec * cdelt1_arcsec * (rsun_ref / rsun_obs) *
        (rsun_ref / rsun_obs) * 100 * 100|),
     ∑ j in Finset.range ny, ∑ i in Finset.range nx,
        cntTerm bz conf_disambig bitmap j i) := by
  unfold compute_abs_flux_dask
  rw [outer_fold]
  have hE := errSum_nonneg bz bz_err conf_disambig bitmap ny nx
  simp only [PyFloat.sqrt, if_neg (not_lt.mpr hE), PyFloat.mul]
  norm_num

end MasterLemma

/-- C1: for same-shape inputs and positive scalars `rsun_ref, rsun_obs,
cdelt1_arcsec`, the value returned by `compute_abs_flux_dask` is the sum of
`|bz[j,i]|` over exactly the pixels with `conf_disambig >= 70`,
`bitmap >= 30` and `bz` not NaN, multiplied by
`cdelt1_arcsec^2 * (rsun_ref/rsun_obs)^2 * 100^2`. -/
theorem C1_total_unsigned_flux_value (bz : ℕ → ℕ → Option ℝ)
    (bz_err conf_disambig bitmap : ℕ → ℕ → ℝ) (nx ny : ℕ)
    (rsun_ref rsun_obs cdelt1_arcsec : ℝ)
    (_hrr : 0 < rsun_ref) (_hro : 0 < rsun_obs) (_hca : 0 < cdelt1_arcsec) :
    (compute_abs_flux_dask (ofOpt bz) (ofReal bz_err) (ofReal conf_disambig)
      (ofReal bitmap) nx ny rsun_ref rsun_obs cdelt1_arcsec).1 =
    PyFloat.fin ((∑ j in Finset.range ny, ∑ i in Finset.range nx,
        if validPix bz conf_disambig bitmap j i then |(bz j i).getD 0| else 0) *
      (cdelt1_arcsec ^ 2 * (rsun_ref / rsun_obs) ^ 2 * 100 ^ 2)) := by
  rw [compute_abs_flux_dask_wrapped]
  simp only [absTerm]
  congr 1
  ring

/-- Witness for C1 at a concrete 1x1 input with all scalars equal to 1. -/
theorem C1_witness :
    (0:ℝ) < 1 ∧
    (compute_abs_flux_dask (ofOpt fun _ _ => some 1) (ofReal fun _ _ => 0)
      (ofReal fun _ _ => 100) (ofReal fun _ _ => 50) 1 1 1 1 1).1 =
    PyFloat.fin ((∑ j in Finset.range 1, ∑ i in Finset.range 1,
        if validPix (fun _ _ => some 1) (fun _ _ => 100) (fun _ _ => 50) j i
        then |((some (1:ℝ)).getD 0)| else 0) *
      ((1:ℝ) ^ 2 * ((1:ℝ) / 1) ^ 2 * 100 ^ 2)) :=
  ⟨by norm_num,
   C1_total_unsigned_flux_value (fun _ _ => some 1) (fun _ _ => 0)
     (fun _ _ => 100) (fun _ _ => 50) 1 1 1 1 1
     (by norm_num) (by norm_num) (by norm_num)⟩

/-- C2: the propagated uncertainty returned by `compute_abs_flux_dask` is
the square root of the sum of `bz_err^2` over the valid pixels, multiplied
by the absolute value of the pixel-area factor
`cdelt1_arcsec^2 * (rsun_ref/rsun_obs)^2 * 100^2`. -/
theorem C2_total_unsigned_flux_error (bz : ℕ → ℕ → Option ℝ)
    (bz_err conf_disambig bitmap : ℕ → ℕ → ℝ) (nx ny : ℕ)
    (rsun_ref rsun_obs cdelt1_arcsec : ℝ) :
    (compute_abs_flux_dask (ofOpt bz) (ofReal bz_err) (ofReal conf_disambig)
      (ofReal bitmap) nx ny rsun_ref rsun_obs cdelt1_arcsec).2.1 =
    PyFloat.fin (Real.sqrt (∑ j in Finset.range ny, ∑ i in Finset.range nx,
        if validPix bz conf_disambig bitmap j i then bz_err j i ^ 2 else 0) *
      |cdelt1_arcsec ^ 2 * (rsun_ref / rsun_obs) ^ 2 * 100 ^ 2|) := by
  rw [compute_abs_flux_dask_wrapped]
  have hsum : (∑ j in Finset.range ny, ∑ i in Finset.range nx,
      errTerm bz bz_err conf_disambig bitmap j i) =
      ∑ j in Finset.range ny, ∑ i in Finset.range nx,
        if validPix bz conf_disambig bitmap j i then bz_err j i ^ 2 else 0 := by
    refine Finset.sum_congr rfl fun j _ => Finset.sum_congr rfl fun i _ => ?_
    unfold errTerm
    split
    · exact (pow_two _).symm
    · rfl
  have hsc : cdelt1_arcsec * cdelt1_arcsec * (rsun_ref / rsun_obs) *
      (rsun_ref / rsun_obs) * 100 * 100 =
      cdelt1_arcsec ^ 2 * (rsun_ref / rsun_obs) ^ 2 * 100 ^ 2 := by ring
  rw [hsum, hsc]

/-- C3: a pixel contributes to the aggregation (and the returned count) iff
`bitmap >= 30`, `conf_disambig >= 70` and the field value is not NaN; the
returned count is the number of such pixels. -/
theorem C3_pixel_count (bz : ℕ → ℕ → Option ℝ)
    (bz_err conf_disambig bitmap : ℕ → ℕ → ℝ) (nx ny : ℕ)
    (rsun_ref rsun_obs cdelt1_arcsec : ℝ) :
    (compute_abs_flux_dask (ofOpt bz) (ofReal bz_err) (ofReal conf_disambig)
      (ofReal bitmap) nx ny rsun_ref rsun_obs cdelt1_arcsec).2.2 =
    ((Finset.range ny ×ˢ Finset.range nx).filter
      (fun p => 30 ≤ bitmap p.1 p.2 ∧ 70 ≤ conf_disambig p.1 p.2 ∧
        (bz p.1 p.2).isSome)).card := by
  have hcard : ((Finset.range ny ×ˢ Finset.range nx).filter
      (fun p => 30 ≤ bitmap p.1 p.2 ∧ 70 ≤ conf_disambig p.1 p.2 ∧
        (bz p.1 p.2).isSome)).card =
      ∑ j in Finset.range ny, ∑ i in Finset.range nx,
        cntTerm bz conf_disambig bitmap j i := by
    rw [Finset.card_filter]
    rw [Finset.sum_product]
    refine Finset.sum_congr rfl fun j _ => Finset.sum_congr rfl fun i _ => ?_
    show (if 30 ≤ bitmap j i ∧ 70 ≤ conf_disambig j i ∧ (bz j i).isSome
      then 1 else 0) = cntTerm bz conf_disambig bitmap j i
    unfold cntTerm validPix
    exact if_congr ⟨fun h => ⟨h.2.1, h.1, h.2.2⟩, fun h => ⟨h.2.1, h.1, h.2.2⟩⟩
      rfl rfl
  rw [compute_abs_flux_dask_wrapped, hcard]

/-- C4 counterexample: on a 1x1 input whose only pixel is invalid
(confidence 0), `compute_abs_flux_dask` returns pixel count 0 but the
NUMERIC value 0 (and error 0), not a NaN/undefined value. -/
theorem C4_counterexample :
    compute_abs_flux_dask (ofOpt fun _ _ => some 5) (ofReal fun _ _ => 0)
      (ofReal fun _ _ => 0) (ofReal fun _ _ => 50) 1 1 1 1 1 =
      (PyFloat.fin 0, PyFloat.fin 0, 0) ∧
    PyFloat.fin 0 ≠ PyFloat.nan := by
  constructor
  · rw [compute_abs_flux_dask_wrapped]
    norm_num [absTerm, errTerm, cntTerm, validPix]
  · intro h
    exact PyFloat.noConfusion h

/-- C4 (amended): on an input with no valid pixel the computation raises no
error and returns pixel count 0 together with the numeric value 0.0 and
error 0.0 (rather than NaN). -/
theorem C4_zero_valid_pixels (bz : ℕ → ℕ → Option ℝ)
    (bz_err conf_disambig bitmap : ℕ → ℕ → ℝ) (nx ny : ℕ)
    (rsun_ref rsun_obs cdelt1_arcsec : ℝ)
    (h : ∀ j ∈ Finset.range ny, ∀ i ∈ Finset.range nx,
      ¬ validPix bz conf_disambig bitmap j i) :
    compute_abs_flux_dask (ofOpt bz) (ofReal bz_err) (ofReal conf_disambig)
      (ofReal bitmap) nx ny rsun_ref rsun_obs cdelt1_arcsec =
      (PyFloat.fin 0, PyFloat.fin 0, 0) := by
  rw [compute_abs_flux_dask_wrapped]
  have hS : (∑ j in Finset.range ny, ∑ i in Finset.range nx,
      absTerm bz conf_disambig bitmap j i) = 0 :=
    Finset.sum_eq_zero fun j hj => Finset.sum_eq_zero fun i hi => by
      unfold absTerm
      exact if_neg (h j hj i hi)
  have hE : (∑ j in Finset.range ny, ∑ i in Finset.range nx,
      errTerm bz bz_err conf_disambig bitmap j i) = 0 :=
    Finset.sum_eq_zero fun j hj => Finset.sum_eq_zero fun i hi => by
      unfold errTerm
      exact if_neg (h j hj i hi)
  have hC : (∑ j in Finset.range ny, ∑ i in Finset.range nx,
      cntTerm bz conf_disambig bitmap j i) = 0 :=
    Finset.sum_eq_zero fun j hj => Finset.sum_eq_zero fun i hi => by
      unfold cntTerm
      exact if_neg (h j hj i hi)
  rw [hS, hE, hC]
  norm_num

/-- Witness for C4 at a concrete all-invalid 1x1 input. -/
theorem C4_witness :
    (∀ j ∈ Finset.range 1, ∀ i ∈ Finset.range 1,
      ¬ validPix (fun _ _ => some 5) (fun _ _ => 0) (fun _ _ => 50) j i) ∧
    compute_abs_flux_dask (ofOpt fun _ _ => some 5) (ofReal fun _ _ => 1)
      (ofReal fun _ _ => 0) (ofReal fun _ _ => 50) 1 1 1 1 1 =
      (PyFloat.fin 0, PyFloat.fin 0, 0) :=
  ⟨by norm_num [validPix],
   C4_zero_valid_pixels (fun _ _ => some 5) (fun _ _ => 1) (fun _ _ => 0)
     (fun _ _ => 50) 1 1 1 1 1 (by norm_num [validPix])⟩

/-- C5: a constant field of 10 Gauss over a fully valid 10x10 region with
pixel area 4e14 cm^2 per pixel (scalars `rsun_ref = rsun_obs = 1`,
`cdelt1_arcsec = 200000`) yields flux 4e17, propagated error 0 and pixel
count 100. -/
theorem C5_end_to_end_10x10 :
    compute_abs_flux_dask (ofOpt fun _ _ => some 10) (ofReal fun _ _ => 0)
      (ofReal fun _ _ => 100) (ofReal fun _ _ => 40) 10 10 1 1 200000 =
      (PyFloat.fin 4e17, PyFloat.fin 0, 100) := by
  rw [compute_abs_flux_dask_wrapped]
  norm_num [absTerm, errTerm, cntTerm, validPix]

/-- C6: replacing every `bz` value by its negation leaves all three
outputs of `compute_abs_flux_dask` unchanged (it aggregates `abs(bz)` with
an `isnan` guard, and neither is affected by the sign). -/
theorem C6_negation_invariant
    (bz bz_err conf_disambig bitmap : ℕ → ℕ → PyFloat) (nx ny : ℕ)
    (rsun_ref rsun_obs cdelt1_arcsec : ℝ) :
    compute_abs_flux_dask (fun j i => (bz j i).neg) bz_err conf_disambig
      bitmap nx ny rsun_ref rsun_obs cdelt1_arcsec =
    compute_abs_flux_dask bz bz_err conf_disambig bitmap nx ny
      rsun_ref rsun_obs cdelt1_arcsec := by
  unfold compute_abs_flux_dask
  have hstep : ∀ (j i : ℕ) (st : PyFloat × PyFloat × ℕ),
      fluxStep (fun j i => (bz j i).neg) bz_err conf_disambig bitmap j i st =
      fluxStep bz bz_err conf_disambig bitmap j i st := by
    intro j i st
    unfold fluxStep
    cases h : bz j i <;>
      simp [h, PyFloat.neg, PyFloat.isnan, PyFloat.abs, abs_neg]
  simp only [hstep]

/-- C7: the angular pixel scale in arcseconds is computed from the native
pixel scale `cdelt1`, the reference radius and the observer distance as
`atan(rsun_ref * cdelt1 * (pi/180) / dsun_obs) * (180/pi) * 3600`. -/
theorem C7_cdelt1_arcsec_formula (rsun_ref cdelt1 dsun_obs : ℝ) :
    cdelt1_arcsec_of rsun_ref cdelt1 dsun_obs =
    Real.arctan (rsun_ref * cdelt1 * (Real.pi / 180) / dsun_obs) *
      (180 / Real.pi) * 3600 := by
  unfold cdelt1_arcsec_of radsindeg
  rw [one_div_div]

/-- C8 counterexample: a NaN in `bz_err` at an otherwise fully valid pixel
is NOT excluded - the pixel is still counted (count 1, not 0) and the NaN
propagates into the returned error output. -/
theorem C8_counterexample :
    (compute_abs_flux_dask (fun _ _ => PyFloat.fin 5) (fun _ _ => PyFloat.nan)
      (fun _ _ => PyFloat.fin 100) (fun _ _ => PyFloat.fin 40)
      1 1 1 1 1).2.1 = PyFloat.nan ∧
    (compute_abs_flux_dask (fun _ _ => PyFloat.fin 5) (fun _ _ => PyFloat.nan)
      (fun _ _ => PyFloat.fin 100) (fun _ _ => PyFloat.fin 40)
      1 1 1 1 1).2.2 = 1 ∧
    PyFloat.nan ≠ PyFloat.fin 0 := by
  refine ⟨?_, ?_, fun h => PyFloat.noConfusion h⟩ <;>
    norm_num [compute_abs_flux_dask, fluxStep, PyFloat.ltc, PyFloat.isnan,
      PyFloat.add, PyFloat.mul, PyFloat.abs, PyFloat.sqrt,
      List.range_succ, List.range_zero, List.foldl_append,
      List.foldl_cons, List.foldl_nil]

/-- C8 (amended): only a NaN in the FIELD array `bz` is excluded from the
aggregation: when `bz[j0,i0]` is NaN, all three outputs equal those
computed with that pixel removed from the valid set (modelled by forcing
its bitmap value to -inf, which is below every threshold). -/
theorem C8_nan_field_excluded
    (bz bz_err conf_disambig bitmap : ℕ → ℕ → PyFloat)
    (nx ny j0 i0 : ℕ) (rsun_ref rsun_obs cdelt1_arcsec : ℝ)
    (h : (bz j0 i0).isnan) :
    compute_abs_flux_dask bz bz_err conf_disambig bitmap nx ny
      rsun_ref rsun_obs cdelt1_arcsec =
    compute_abs_flux_dask bz bz_err conf_disambig
      (fun a b => if a = j0 ∧ b = i0 then PyFloat.neginf else bitmap a b)
      nx ny rsun_ref rsun_obs cdelt1_arcsec := by
  unfold compute_abs_flux_dask
  have hstep : ∀ (j i : ℕ) (st : PyFloat × PyFloat × ℕ),
      fluxStep bz bz_err conf_disambig bitmap j i st =
      fluxStep bz bz_err conf_disambig
        (fun a b => if a = j0 ∧ b = i0 then PyFloat.neginf else bitmap a b)
        j i st := by
    intro j i st
    by_cases hji : j = j0 ∧ i = i0
    · have hnan : (bz j i).isnan := by
        rw [hji.1, hji.2]
        exact h
      have hL : fluxStep bz bz_err conf_disambig bitmap j i st = st := by
        unfold fluxStep
        by_cases hc : (conf_disambig j i).ltc 70 ∨ (bitmap j i).ltc 30
        · rw [if_pos hc]
        · rw [if_neg hc, if_pos hnan]
      have hR : fluxStep bz bz_err conf_disambig
          (fun a b => if a = j0 ∧ b = i0 then PyFloat.neginf else bitmap a b)
          j i st = st := by
        unfold fluxStep
        rw [if_pos]
        right
        show PyFloat.ltc (if j = j0 ∧ i = i0 then PyFloat.neginf else bitmap j i) 30
        rw [if_pos hji]
        exact trivial
      rw [hL, hR]
    · simp only [fluxStep, if_neg hji]
  simp only [hstep]

/-- Witness for C8 at a concrete 1x1 input whose single field value is
NaN. -/
theorem C8_witness :
    ((fun (_ _ : ℕ) => PyFloat.nan) 0 0).isnan = true ∧
    compute_abs_flux_dask (fun _ _ => PyFloat.nan) (fun _ _ => PyFloat.fin 1)
      (fun _ _ => PyFloat.fin 100) (fun _ _ => PyFloat.fin 40) 1 1 1 1 1 =
    compute_abs_flux_dask (fun _ _ => PyFloat.nan) (fun _ _ => PyFloat.fin 1)
      (fun _ _ => PyFloat.fin 100)
      (fun a b => if a = 0 ∧ b = 0 then PyFloat.neginf
        else (fun (_ _ : ℕ) => PyFloat.fin 40) a b) 1 1 1 1 1 :=
  ⟨rfl,
   C8_nan_field_excluded (fun _ _ => PyFloat.nan) (fun _ _ => PyFloat.fin 1)
     (fun _ _ => PyFloat.fin 100) (fun _ _ => PyFloat.fin 40)
     1 1 0 0 1 1 1 rfl⟩

/-- C10: for finite array entries (and a nonzero observed radius), the
returned value and propagated error are finite nonnegative numbers and
the pixel count is at most `ny * nx`, whatever the signs of the field,
error and geometry values. -/
theorem C10_output_invariants (bzR bz_err conf_disambig bitmap : ℕ → ℕ → ℝ)
    (nx ny : ℕ) (rsun_ref rsun_obs cdelt1_arcsec : ℝ)
    (_hro : rsun_obs ≠ 0) :
    (∃ v, (compute_abs_flux_dask (ofReal bzR) (ofReal bz_err)
        (ofReal conf_disambig) (ofReal bitmap) nx ny rsun_ref rsun_obs
        cdelt1_arcsec).1 = PyFloat.fin v ∧ 0 ≤ v) ∧
    (∃ e, (compute_abs_flux_dask (ofReal bzR) (ofReal bz_err)
        (ofReal conf_disambig) (ofReal bitmap) nx ny rsun_ref rsun_obs
        cdelt1_arcsec).2.1 = PyFloat.fin e ∧ 0 ≤ e) ∧
    (compute_abs_flux_dask (ofReal bzR) (ofReal bz_err) (ofReal conf_disambig)
      (ofReal bitmap) nx ny rsun_ref rsun_obs cdelt1_arcsec).2.2 ≤ ny * nx := by
  have hwrap : ofReal bzR = ofOpt (fun j i => some (bzR j i)) := rfl
  rw [hwrap, compute_abs_flux_dask_wrapped]
  have hscale : 0 ≤ cdelt1_arcsec * cdelt1_arcsec * (rsun_ref / rsun_obs) *
      (rsun_ref / rsun_obs) * 100 * 100 := by
    have : cdelt1_arcsec * cdelt1_arcsec * (rsun_ref / rsun_obs) *
        (rsun_ref / rsun_obs) * 100 * 100 =
        (cdelt1_arcsec * (rsun_ref / rsun_obs) * 100) ^ 2 := by ring
    rw [this]
    exact sq_nonneg _
  refine ⟨⟨_, rfl, ?_⟩, ⟨_, rfl, ?_⟩, ?_⟩
  · refine mul_nonneg ?_ hscale
    refine Finset.sum_nonneg fun j _ => Finset.sum_nonneg fun i _ => ?_
    unfold absTerm
    split
    · exact abs_nonneg _
    · exact le_refl 0
  · exact mul_nonneg (Real.sqrt_nonneg _) (abs_nonneg _)
  · calc (∑ j in Finset.range ny, ∑ i in Finset.range nx,
        cntTerm (fun j i => some (bzR j i)) conf_disambig bitmap j i)
        ≤ ∑ j in Finset.range ny, ∑ i in Finset.range nx, 1 := by
          refine Finset.sum_le_sum fun j _ => Finset.sum_le_sum fun i _ => ?_
          unfold cntTerm
          split
          · exact le_refl 1
          · exact Nat.zero_le 1
      _ = ny * nx := by simp [Finset.sum_const, Finset.card_range, mul_comm]

/-- Witness for C10 at a concrete 1x1 input with scalars 1. -/
theorem C10_witness :
    (1:ℝ) ≠ 0 ∧
    ((∃ v, (compute_abs_flux_dask (ofReal fun _ _ => -3) (ofReal fun _ _ => -2)
        (ofReal fun _ _ => 100) (ofReal fun _ _ => 40) 1 1 1 1
        1).1 = PyFloat.fin v ∧ 0 ≤ v) ∧
    (∃ e, (compute_abs_flux_dask (ofReal fun _ _ => -3) (ofReal fun _ _ => -2)
        (ofReal fun _ _ => 100) (ofReal fun _ _ => 40) 1 1 1 1
        1).2.1 = PyFloat.fin e ∧ 0 ≤ e) ∧
    (compute_abs_flux_dask (ofReal fun _ _ => -3) (ofReal fun _ _ => -2)
      (ofReal fun _ _ => 100) (ofReal fun _ _ => 40) 1 1 1 1
      1).2.2 ≤ 1 * 1) :=
  ⟨by norm_num,
   C10_output_invariants (fun _ _ => -3) (fun _ _ => -2) (fun _ _ => 100)
     (fun _ _ => 40) 1 1 1 1 1 (by norm_num)⟩

/-- A Python exception reaching the caller; the only failure the loop can
raise is an IndexError from an out-of-bounds array subscript. -/
inductive PyError where
  | indexError : PyError

/-- A shaped 2-D array: numpy-style subscripting `a[j,i]` (for the
nonnegative indices used by the loop) succeeds exactly when `j < rows` and
`i < cols`, and raises IndexError otherwise. -/
structure NDArr where
  rows : ℕ
  cols : ℕ
  data : ℕ → ℕ → PyFloat

/-- Bounds-checked subscripting `a[j,i]`. -/
def NDArr.get (a : NDArr) (j i : ℕ) : Except PyError PyFloat :=
  if j < a.rows ∧ i < a.cols then Except.ok (a.data j i)
  else Except.error PyError.indexError

/-- The loop body of `compute_abs_flux_dask` over shaped arrays, with
python evaluation order (short-circuiting `or`); every subscript may raise
IndexError. -/
noncomputable def fluxStepE (bz bz_err conf_disambig bitmap : NDArr)
    (j i : ℕ) (st : PyFloat × PyFloat × ℕ) :
    Except PyError (PyFloat × PyFloat × ℕ) := do
  let c ← conf_disambig.get j i
  if c.ltc 70 then
    return st
  else
    let b ← bitmap.get j i
    if b.ltc 30 then
      return st
    else
      let z ← bz.get j i
      if z.isnan then
        return st
      else
        let ze ← bz_err.get j i
        return (st.1.add z.abs, st.2.1.add (ze.mul ze), st.2.2 + 1)

/-- `compute_abs_flux_dask` over shaped arrays, propagating any
IndexError raised by the loop. -/
noncomputable def compute_abs_flux_dask_shaped
    (bz bz_err conf_disambig bitmap : NDArr) (nx ny : ℕ)
    (rsun_ref rsun_obs cdelt1_arcsec : ℝ) :
    Except PyError (PyFloat × PyFloat × ℕ) := do
  let st ← (List.range ny).foldlM
    (fun st j => (List.range nx).foldlM
      (fun st i => fluxStepE bz bz_err conf_disambig bitmap j i st) st)
    (PyFloat.fin 0, PyFloat.fin 0, 0)
  let scale := cdelt1_arcsec * cdelt1_arcsec * (rsun_ref / rsun_obs) *
    (rsun_ref / rsun_obs) * 100.0 * 100.0
  return (st.1.mul (PyFloat.fin scale),
    (st.2.1.sqrt).mul (PyFloat.fin |scale|),
    st.2.2)

lemma except_bind_ok {α β : Type} (a : α) (f : α → Except PyError β) :
    (Except.ok a >>= f : Except PyError β) = f a := rfl

lemma except_pure {α : Type} (a : α) :
    (pure a : Except PyError α) = Except.ok a := rfl

lemma fluxStepE_ok (bz bz_err conf_disambig bitmap : NDArr) (j i : ℕ)
    (h1 : j < bz.rows ∧ i < bz.cols) (h2 : j < bz_err.rows ∧ i < bz_err.cols)
    (h3 : j < conf_disambig.rows ∧ i < conf_disambig.cols)
    (h4 : j < bitmap.rows ∧ i < bitmap.cols) (st : PyFloat × PyFloat × ℕ) :
    fluxStepE bz bz_err conf_disambig bitmap j i st =
      Except.ok (fluxStep bz.data bz_err.data conf_disambig.data bitmap.data
        j i st) := by
  unfold fluxStepE fluxStep NDArr.get
  simp only [if_pos h1, if_pos h2, if_pos h3, if_pos h4, except_bind_ok,
    except_pure]
  by_cases h70 : (conf_disambig.data j i).ltc 70
  · simp only [if_pos h70, if_pos (Or.inl h70 :
      (conf_disambig.data j i).ltc 70 ∨ (bitmap.data j i).ltc 30)]
  · simp only [if_neg h70]
    by_cases h30 : (bitmap.data j i).ltc 30
    · simp only [if_pos h30, if_pos (Or.inr h30 :
        (conf_disambig.data j i).ltc 70 ∨ (bitmap.data j i).ltc 30)]
    · have hor : ¬ ((conf_disambig.data j i).ltc 70 ∨
          (bitmap.data j i).ltc 30) := by
        rintro (hx | hx)
        · exact h70 hx
        · exact h30 hx
      simp only [if_neg h30, if_neg hor]
      by_cases hnan : (bz.data j i).isnan
      · simp only [if_pos hnan]
      · simp only [if_neg hnan]

lemma foldlM_ok {α β : Type} (g : β → α → Except PyError β) (f : β → α → β)
    (l : List α) (hg : ∀ st, ∀ a ∈ l, g st a = Except.ok (f st a)) :
    ∀ st : β, l.foldlM g st = Except.ok (l.foldl f st) := by
  induction l with
  | nil =>
    intro st
    rfl
  | cons a l ih =>
    intro st
    rw [List.foldlM_cons, hg st a (List.mem_cons_self a l)]
    rw [List.foldl_cons]
    have hbind : (Except.ok (f st a) >>= fun s =>
        List.foldlM g s l : Except PyError β) = List.foldlM g (f st a) l := rfl
    rw [hbind]
    exact ih (fun st b hb => hg st b (List.mem_cons_of_mem a hb)) (f st a)

/-- Helper: when every array covers the iterated index range (whether or
not shapes agree), the shaped computation raises nothing and agrees with
the unchecked one. -/
lemma compute_shaped_covers (bz bz_err conf_disambig bitmap : NDArr)
    (nx ny : ℕ) (rsun_ref rsun_obs cdelt1_arcsec : ℝ)
    (hbz : ny ≤ bz.rows ∧ nx ≤ bz.cols)
    (hbe : ny ≤ bz_err.rows ∧ nx ≤ bz_err.cols)
    (hcf : ny ≤ conf_disambig.rows ∧ nx ≤ conf_disambig.cols)
    (hbm : ny ≤ bitmap.rows ∧ nx ≤ bitmap.cols) :
    compute_abs_flux_dask_shaped bz bz_err conf_disambig bitmap nx ny
      rsun_ref rsun_obs cdelt1_arcsec =
    Except.ok (compute_abs_flux_dask bz.data bz_err.data conf_disambig.data
      bitmap.data nx ny rsun_ref rsun_obs cdelt1_arcsec) := by
  unfold compute_abs_flux_dask_shaped compute_abs_flux_dask
  rw [foldlM_ok]
  · rfl
  · intro st j hj
    have hjny : j < ny := List.mem_range.mp hj
    exact foldlM_ok _ _ _
      (fun st i hi => fluxStepE_ok bz bz_err conf_disambig bitmap j i
        ⟨lt_of_lt_of_le hjny hbz.1, lt_of_lt_of_le (List.mem_range.mp hi) hbz.2⟩
        ⟨lt_of_lt_of_le hjny hbe.1, lt_of_lt_of_le (List.mem_range.mp hi) hbe.2⟩
        ⟨lt_of_lt_of_le hjny hcf.1, lt_of_lt_of_le (List.mem_range.mp hi) hcf.2⟩
        ⟨lt_of_lt_of_le hjny hbm.1, lt_of_lt_of_le (List.mem_range.mp hi) hbm.2⟩
        st) st

/-- C9 counterexample: with co-required arrays of mismatched shapes (field
1x1, error 1x1, confidence 2x2, bitmap 3x1) the computation does NOT fail:
it silently returns a keyword triple. -/
theorem C9_counterexample :
    (NDArr.mk 2 2 fun _ _ => PyFloat.fin 100).rows ≠
      (NDArr.mk 1 1 fun _ _ => PyFloat.fin 5).rows ∧
    compute_abs_flux_dask_shaped (NDArr.mk 1 1 fun _ _ => PyFloat.fin 5)
      (NDArr.mk 1 1 fun _ _ => PyFloat.fin 1)
      (NDArr.mk 2 2 fun _ _ => PyFloat.fin 100)
      (NDArr.mk 3 1 fun _ _ => PyFloat.fin 40) 1 1 1 1 1 =
      Except.ok (PyFloat.fin 50000, PyFloat.fin 10000, 1) := by
  refine ⟨by norm_num, ?_⟩
  rw [compute_shaped_covers _ _ _ _ _ _ _ _ _ (by norm_num) (by norm_num)
    (by norm_num) (by norm_num)]
  norm_num [compute_abs_flux_dask, fluxStep, PyFloat.ltc, PyFloat.isnan,
    PyFloat.add, PyFloat.mul, PyFloat.abs, PyFloat.sqrt,
    List.range_succ, List.range_zero, List.foldl_append, List.foldl_cons,
    List.foldl_nil, Real.sqrt_one]

/-- C9 (amended): the code performs no shape check at all: whenever every
input array covers the iterated ny x nx index range - in particular when
the shapes disagree but are all at least ny x nx - the invocation raises
nothing and silently returns the keyword triple computed from the
overlapping region; only an access outside an array raises (an IndexError,
not a ShapeMismatch). -/
theorem C9_no_shape_mismatch_check (bz bz_err conf_disambig bitmap : NDArr)
    (nx ny : ℕ) (rsun_ref rsun_obs cdelt1_arcsec : ℝ)
    (hbz : ny ≤ bz.rows ∧ nx ≤ bz.cols)
    (hbe : ny ≤ bz_err.rows ∧ nx ≤ bz_err.cols)
    (hcf : ny ≤ conf_disambig.rows ∧ nx ≤ conf_disambig.cols)
    (hbm : ny ≤ bitmap.rows ∧ nx ≤ bitmap.cols) :
    compute_abs_flux_dask_shaped bz bz_err conf_disambig bitmap nx ny
      rsun_ref rsun_obs cdelt1_arcsec =
    Except.ok (compute_abs_flux_dask bz.data bz_err.data conf_disambig.data
      bitmap.data nx ny rsun_ref rsun_obs cdelt1_arcsec) :=
  compute_shaped_covers bz bz_err conf_disambig bitmap nx ny
    rsun_ref rsun_obs cdelt1_arcsec hbz hbe hcf hbm

/-- Witness for C9 at a concrete input with four mutually mismatched
shapes that all cover the 1x1 iteration range. -/
theorem C9_witness :
    ((1:ℕ) ≤ 1 ∧ (1:ℕ) ≤ 1) ∧ ((1:ℕ) ≤ 1 ∧ (1:ℕ) ≤ 2) ∧
    ((1:ℕ) ≤ 2 ∧ (1:ℕ) ≤ 2) ∧ ((1:ℕ) ≤ 3 ∧ (1:ℕ) ≤ 1) ∧
    compute_abs_flux_dask_shaped (NDArr.mk 1 1 fun _ _ => PyFloat.fin 7)
      (NDArr.mk 1 2 fun _ _ => PyFloat.fin 2)
      (NDArr.mk 2 2 fun _ _ => PyFloat.fin 90)
      (NDArr.mk 3 1 fun _ _ => PyFloat.fin 35) 1 1 1 1 1 =
      Except.ok (compute_abs_flux_dask
        (NDArr.mk 1 1 fun _ _ => PyFloat.fin 7).data
        (NDArr.mk 1 2 fun _ _ => PyFloat.fin 2).data
        (NDArr.mk 2 2 fun _ _ => PyFloat.fin 90).data
        (NDArr.mk 3 1 fun _ _ => PyFloat.fin 35).data 1 1 1 1 1) :=
  ⟨⟨le_refl 1, le_refl 1⟩, ⟨le_refl 1, by norm_num⟩,
   ⟨by norm_num, by norm_num⟩, ⟨by norm_num, le_refl 1⟩,
   C9_no_shape_mismatch_check _ _ _ _ 1 1 1 1 1 (by norm_num) (by norm_num)
     (by norm_num) (by norm_num)⟩
